import Mathlib

/-
Shallow embedding of the essay-processing backend (main.py, models.py).

Text is modelled as lists of characters so that the concatenation and
substring structure of the transcription output can be reasoned about.
Python str.strip() is modelled by pyStrip.  The external AI calls are
modelled as oracles: a transcription oracle maps an image URL to either
a returned text or a raised exception, and a correction oracle does the
same for an input text.  Database sessions always commit successfully in
this model (the recovery-write paths of the source are not exercised by
any claim).  Each endpoint is modelled as a pure function from the
entities the handler reads (the paper found by id, its images, the user
row) to the response and the final database state of those entities;
the 404 paper-not-found and user-not-found branches are outside the
model, the handlers receive the rows the session lookups returned.
-/

namespace Corrector

abbrev Str := List Char

/-- Whitespace characters stripped by Python str.strip (ASCII subset). -/
def isPyWhitespace (c : Char) : Bool :=
  c = ' ' || c = '\t' || c = '\n' || c = '\r' || c = Char.ofNat 11 || c = Char.ofNat 12

/-- Model of Python str.lstrip(). -/
def pyStripLeft (s : Str) : Str := s.dropWhile isPyWhitespace

/-- Model of Python str.rstrip(). -/
def pyStripRight (s : Str) : Str := (s.reverse.dropWhile isPyWhitespace).reverse

/-- Model of Python str.strip(). -/
def pyStrip (s : Str) : Str := pyStripRight (pyStripLeft s)

-- Application constants from main.py
def MAX_UPLOAD_SIZE_BYTES : Nat := 5 * 1024 * 1024
def MAX_EXAM_PAPERS_PER_USER : Nat := 20
def TRANSCRIPTION_COST : Int := 1
def CORRECTION_COST : Int := 5

-- Constant from llm_services.py
def CORRECTION_PROMPT_VERSION_CURRENT : String := "1.0"

/-- User row (models.py, class User). -/
structure User where
  id : String
  email : Option String
  credits : Int
deriving DecidableEq

/-- ExamImage row (models.py, class ExamImage). -/
structure ExamImage where
  id : Option Int
  image_url : String
  page_number : Option Int
  exam_paper_id : Option Int
deriving DecidableEq

/-- ExamPaper row (models.py, class ExamPaper).  Timestamps are abstract
natural numbers supplied by the caller as the current time. -/
structure ExamPaper where
  id : Int
  filename : Option Str
  status : String
  transcribed_text : Option Str
  transcription_credits_consumed : Int
  corrected_feedback : Option Str
  correction_credits_consumed : Int
  correction_prompt_version : Option String
  user_id : String
  created_at : Nat
  updated_at : Nat
  corrected_at : Option Nat
deriving DecidableEq

/-- HTTP error responses raised by the handlers. -/
inductive HError where
  | notFound
  | forbidden
  | badRequest
  | conflict
  | paymentRequired
  | payloadTooLarge
  | serviceUnavailable
  | internalFailure
deriving DecidableEq

/-- Oracle for llm_services.transcribe_image_url_with_llm: from an image
URL, either a returned text (possibly empty) or a raised exception. -/
abbrev TranscribeOracle := String → Except Unit Str

/-- Oracle for llm_services.correct_text_with_llm. -/
abbrev CorrectOracle := Str → Except Unit Str

/-- Sort key comparison used on images: page_number if not None else
float('inf'), so None sorts last. -/
def pageKeyLE : Option Int → Option Int → Bool
  | some a, some b => decide (a ≤ b)
  | some _, none => true
  | none, some _ => false
  | none, none => true

/-- Ordering relation on images by page number, None last. -/
def pageOrder (a b : ExamImage) : Prop :=
  pageKeyLE a.page_number b.page_number = true

instance : DecidableRel pageOrder := fun a b =>
  decEq (pageKeyLE a.page_number b.page_number) true

/-- Model of sorted(images, key=...) in the transcription handler. -/
def sortedImages (images : List ExamImage) : List ExamImage :=
  List.insertionSort pageOrder images

/-- Page label: image_obj.page_number or index + 1, where Python `or`
falls through on both None and 0, and index is the 0-based position. -/
def pageLabel (pn : Option Int) (index : Nat) : Int :=
  match pn with
  | some n => if n = 0 then (index + 1 : Int) else n
  | none => (index + 1 : Int)

/-- Page header written before each page's transcription. -/
def pageHeader (label : Int) : Str :=
  ("--- Página " ++ toString label ++ " ---\n").data

/-- Page footer written after each page's transcription. -/
def pageFooter (label : Int) : Str :=
  ("\n--- Fin de Página " ++ toString label ++ " ---\n\n").data

/-- Placeholder recorded when a page's call returns empty text. -/
def EMPTY_PAGE_PLACEHOLDER : Str :=
  "[Transcripción vacía para esta página]".data

/-- Placeholder recorded when a page's call raises an exception. -/
def PAGE_ERROR_PLACEHOLDER : Str :=
  "[ERROR EN TRANSCRIPCIÓN DE ESTA PÁGINA]".data

/-- Per-page processing in the transcription loop of
transcribe_exam_paper_endpoint: header plus either the stripped page
text, the empty-page placeholder, or the error placeholder, plus
footer. -/
def transcribePage (llm : TranscribeOracle) (index : Nat) (img : ExamImage) : Str :=
  let lbl := pageLabel img.page_number index
  match llm img.image_url with
  | .ok t =>
      if t ≠ [] ∧ pyStrip t ≠ [] then
        pageHeader lbl ++ pyStrip t ++ pageFooter lbl
      else
        pageHeader lbl ++ EMPTY_PAGE_PLACEHOLDER ++ pageFooter lbl
  | .error _ => pageHeader lbl ++ PAGE_ERROR_PLACEHOLDER ++ pageFooter lbl

/-- Whether a page's AI call raises an exception. -/
def pageFailed (llm : TranscribeOracle) (img : ExamImage) : Bool :=
  match llm img.image_url with
  | .ok _ => false
  | .error _ => true

/-- The list full_transcribed_text_parts built by the loop, in processing
order (images sorted by page number, enumerated from 0). -/
def transcriptionParts (llm : TranscribeOracle) (images : List ExamImage) : List Str :=
  (sortedImages images).enum.map fun p => transcribePage llm p.1 p.2

/-- final_transcribed_text = "".join(parts).strip(). -/
def finalTranscribedText (llm : TranscribeOracle) (images : List ExamImage) : Str :=
  pyStrip (transcriptionParts llm images).flatten

/-- any_page_transcription_failed after the loop. -/
def anyPageFailed (llm : TranscribeOracle) (images : List ExamImage) : Bool :=
  (sortedImages images).any (pageFailed llm)

/-- Outcome of a handler that may mutate the paper and the user: the
HTTP response (none = 200 with the paper) and the final database rows. -/
structure HandlerResult where
  response : Option HError
  paper : ExamPaper
  user : User
deriving DecidableEq

/-- Model of POST /exam_papers/\x7bpaper_id\x7d/transcribe
(transcribe_exam_paper_endpoint in main.py).  The handler receives the
paper found by id, its images, and the caller's user row. -/
def transcribe_exam_paper_endpoint (llm : TranscribeOracle) (now : Nat)
    (uid : String) (paper : ExamPaper) (images : List ExamImage)
    (user : User) : HandlerResult :=
  if paper.user_id ≠ uid then ⟨some .forbidden, paper, user⟩
  else if images = [] then ⟨some .badRequest, paper, user⟩
  else if ¬ (paper.status = "uploaded" ∨ paper.status = "error_transcription") then
    ⟨some .conflict, paper, user⟩
  else if user.credits < TRANSCRIPTION_COST then ⟨some .paymentRequired, paper, user⟩
  else
    let paper1 : ExamPaper := { paper with status := "transcribing", updated_at := now }
    let finalText := finalTranscribedText llm images
    let failed := anyPageFailed llm images
    if finalText ≠ [] then
      if failed then
        ⟨none,
         { paper1 with transcribed_text := some finalText,
                       status := "error_transcription", updated_at := now },
         user⟩
      else
        ⟨none,
         { paper1 with transcribed_text := some finalText,
                       status := "transcribed",
                       transcription_credits_consumed := TRANSCRIPTION_COST,
                       updated_at := now },
         { user with credits := user.credits - TRANSCRIPTION_COST }⟩
    else
      if failed then
        ⟨some .internalFailure,
         { paper1 with status := "error_transcription", updated_at := now }, user⟩
      else
        ⟨none,
         { paper1 with status := "error_transcription", updated_at := now }, user⟩

/-- Model of POST /exam_papers/\x7bpaper_id\x7d/correct
(correct_exam_paper_endpoint in main.py). -/
def correct_exam_paper_endpoint (llm : CorrectOracle) (now : Nat)
    (uid : String) (paper : ExamPaper) (user : User) : HandlerResult :=
  if paper.user_id ≠ uid then ⟨some .forbidden, paper, user⟩
  else if paper.status ≠ "transcribed" then ⟨some .conflict, paper, user⟩
  else
    match paper.transcribed_text with
    | none => ⟨some .badRequest, paper, user⟩
    | some t =>
      if t = [] ∨ pyStrip t = [] then ⟨some .badRequest, paper, user⟩
      else if user.credits < CORRECTION_COST then ⟨some .paymentRequired, paper, user⟩
      else
        let paper1 : ExamPaper := { paper with status := "correcting", updated_at := now }
        match llm t with
        | .ok fb =>
          if fb ≠ [] ∧ pyStrip fb ≠ [] then
            ⟨none,
             { paper1 with corrected_feedback := some fb,
                           status := "corrected",
                           correction_credits_consumed := CORRECTION_COST,
                           correction_prompt_version := some CORRECTION_PROMPT_VERSION_CURRENT,
                           corrected_at := some now,
                           updated_at := now },
             { user with credits := user.credits - CORRECTION_COST }⟩
          else
            ⟨some .internalFailure,
             { paper1 with status := "error_correction", updated_at := now }, user⟩
        | .error _ =>
          ⟨some .internalFailure,
           { paper1 with status := "error_correction", updated_at := now }, user⟩

/-- Model of PUT /exam_papers/\x7bpaper_id\x7d/transcribed_text
(update_exam_paper_transcribed_text in main.py).  The user row is passed
through untouched: the handler never reads or writes users. -/
def update_exam_paper_transcribed_text (now : Nat) (uid : String)
    (paper : ExamPaper) (user : User) (newText : Str) : HandlerResult :=
  if paper.user_id ≠ uid then ⟨some .forbidden, paper, user⟩
  else
    let p1 : ExamPaper := { paper with transcribed_text := some newText, updated_at := now }
    let p2 : ExamPaper :=
      if (paper.status = "error_transcription" ∨ paper.status = "uploaded")
          ∧ newText ≠ [] ∧ pyStrip newText ≠ [] then
        { p1 with status := "transcribed" }
      else p1
    ⟨none, p2, user⟩

/-- Ordering on papers by creation time, as in ORDER BY created_at. -/
def createdAtLE (a b : ExamPaper) : Prop :=
  a.created_at ≤ b.created_at

instance : DecidableRel createdAtLE := fun a b =>
  Nat.decLe a.created_at b.created_at

instance : IsTotal ExamPaper createdAtLE :=
  ⟨fun a b => Nat.le_total a.created_at b.created_at⟩

instance : IsTrans ExamPaper createdAtLE :=
  ⟨fun _ _ _ => Nat.le_trans⟩

/-- Model of GET /exam_papers/ (list_exam_papers_for_current_user in
main.py): the user's papers ordered by created_at (ascending, the SQL
default), with OFFSET skip LIMIT limit. -/
def list_exam_papers_for_current_user (papers : List ExamPaper)
    (uid : String) (skip limit : Nat) : List ExamPaper :=
  (((papers.filter fun p => p.user_id == uid).insertionSort createdAtLE).drop skip).take limit

/-- One file of the incoming multipart upload. -/
structure UploadFileIn where
  filename : Option String
  content_type : Option String
  size : Nat
deriving DecidableEq

/-- Outcome of the upload handler: the response and the rows the request
left in the database (none when the paper was rolled back or never
created). -/
structure UploadResult where
  response : Option HError
  createdPaper : Option ExamPaper
  createdImages : List ExamImage
deriving DecidableEq

/-- Fallback title when no usable essay_title was supplied: the first
file's filename if non-empty, otherwise a generated default name. -/
def fallbackFilename (files : List UploadFileIn) (defaultName : String) : Str :=
  match files.head? with
  | some f =>
    match f.filename with
    | some fn => if fn.data ≠ [] then fn.data else defaultName.data
    | none => defaultName.data
  | none => defaultName.data

def MAX_FILENAME_LENGTH : Nat := 255

/-- Title computation for the new paper in upload_multiple_exam_images. -/
def computePaperFilename (essay_title : Option String)
    (files : List UploadFileIn) (defaultName : String) : Str :=
  let base : Str :=
    match essay_title with
    | some t =>
      if t.data ≠ [] ∧ pyStrip t.data ≠ [] then pyStrip t.data
      else fallbackFilename files defaultName
    | none => fallbackFilename files defaultName
  base.take MAX_FILENAME_LENGTH

/-- Per-file validation inside the upload loop: a missing or non-image
content type or an oversized file raises; the handler's blanket except
turns any such raise into a rollback plus a 500 response. -/
def validateFiles : List UploadFileIn → Option HError
  | [] => none
  | f :: fs =>
    match f.content_type with
    | none => some .badRequest
    | some ct =>
      if ¬ ct.startsWith ("image/") then some .badRequest
      else if f.size > MAX_UPLOAD_SIZE_BYTES then some .payloadTooLarge
      else validateFiles fs

/-- Model of POST /exam_papers/upload_multiple_images/
(upload_multiple_exam_images in main.py).  current_paper_count is the
fresh count query result; newPaperId and imageUrlFor abstract the
database-assigned id and the storage URLs.  A validation failure inside
the try block is caught by the blanket exception handler, which deletes
the freshly created paper and its images and responds 500. -/
def upload_multiple_exam_images (storageConfigured : Bool)
    (current_paper_count : Nat) (files : List UploadFileIn)
    (essay_title : Option String) (defaultName : String) (uid : String)
    (newPaperId : Int) (imageUrlFor : Nat → String) (now : Nat) : UploadResult :=
  if current_paper_count ≥ MAX_EXAM_PAPERS_PER_USER then ⟨some .forbidden, none, []⟩
  else if ¬ storageConfigured then ⟨some .serviceUnavailable, none, []⟩
  else if files = [] then ⟨some .badRequest, none, []⟩
  else
    let paper : ExamPaper :=
      { id := newPaperId
        filename := some (computePaperFilename essay_title files defaultName)
        status := "uploaded"
        transcribed_text := none
        transcription_credits_consumed := 0
        corrected_feedback := none
        correction_credits_consumed := 0
        correction_prompt_version := none
        user_id := uid
        created_at := now
        updated_at := now
        corrected_at := none }
    match validateFiles files with
    | some _ => ⟨some .internalFailure, none, []⟩
    | none =>
      let imgs := files.enum.map fun p =>
        ({ id := none, image_url := imageUrlFor p.1,
           page_number := some ((p.1 : Int) + 1),
           exam_paper_id := some newPaperId } : ExamImage)
      ⟨none, some paper, imgs⟩

/-
Concrete rows and oracles used to evaluate the model on specific inputs.
-/

/-- A user holding 5 credits. -/
def userFive : User := { id := "u1", email := none, credits := 5 }

/-- A user holding 0 credits. -/
def userBroke : User := { id := "u1", email := none, credits := 0 }

/-- A freshly uploaded single-page paper owned by u1. -/
def paperUploaded : ExamPaper :=
  { id := 1, filename := none, status := "uploaded", transcribed_text := none,
    transcription_credits_consumed := 0, corrected_feedback := none,
    correction_credits_consumed := 0, correction_prompt_version := none,
    user_id := "u1", created_at := 0, updated_at := 0, corrected_at := none }

/-- A paper in status transcribed with a transcript, owned by u1. -/
def paperTranscribed : ExamPaper :=
  { paperUploaded with status := "transcribed",
                       transcribed_text := some ("hola mundo".data) }

/-- A paper in status error_transcription, owned by u1. -/
def paperErrorT : ExamPaper :=
  { paperUploaded with status := "error_transcription" }

/-- Page 1 of paper 1. -/
def image1 : ExamImage :=
  { id := some 1, image_url := "http://img/1", page_number := some 1,
    exam_paper_id := some 1 }

/-- Page 2 of paper 1. -/
def image2 : ExamImage :=
  { id := some 2, image_url := "http://img/2", page_number := some 2,
    exam_paper_id := some 1 }

/-- Transcription oracle that returns empty text for every page. -/
def llmEmpty : TranscribeOracle := fun _ => .ok []

/-- Transcription oracle that returns non-blank text for every page. -/
def llmGood : TranscribeOracle := fun _ => .ok ("texto de la página".data)

/-- Transcription oracle that raises for page 2 and answers elsewhere. -/
def llmFailPage2 : TranscribeOracle := fun url =>
  if url == "http://img/2" then .error () else .ok ("texto de la página".data)

/-- Correction oracle that always raises. -/
def llmCorrectFail : CorrectOracle := fun _ => .error ()

/-- Two papers by the same user created at times 0 and 1. -/
def paperOld : ExamPaper := paperUploaded

def paperNew : ExamPaper :=
  { paperUploaded with id := 2, created_at := 1, updated_at := 1 }

/-- A well-formed upload file. -/
def goodFile : UploadFileIn :=
  { filename := some ("page1.png"), content_type := some ("image/png"), size := 100 }

/-
Lemmas about pyStrip.
-/

theorem pyStripLeft_suffix (s : Str) : pyStripLeft s <:+ s :=
  List.dropWhile_suffix _

theorem pyStripRight_prefix (s : Str) : pyStripRight s <+: s := by
  have h : (s.reverse.dropWhile isPyWhitespace) <:+ s.reverse :=
    List.dropWhile_suffix _
  have h2 : (pyStripRight s).reverse <:+ s.reverse := by
    simpa [pyStripRight] using h
  exact List.reverse_suffix.mp h2

theorem pyStrip_isInfix (s : Str) : pyStrip s <:+: s := by
  have h1 : pyStrip s <+: pyStripLeft s := pyStripRight_prefix _
  exact h1.isInfix.trans (pyStripLeft_suffix s).isInfix

theorem pyStripRight_eq_nil_iff (s : Str) :
    pyStripRight s = [] ↔ ∀ c ∈ s, isPyWhitespace c = true := by
  unfold pyStripRight
  rw [List.reverse_eq_nil_iff, List.dropWhile_eq_nil_iff]
  constructor
  · intro h c hc
    exact h c (List.mem_reverse.mpr hc)
  · intro h c hc
    exact h c (List.mem_reverse.mp hc)

theorem pyStrip_eq_nil_iff (s : Str) :
    pyStrip s = [] ↔ ∀ c ∈ s, isPyWhitespace c = true := by
  unfold pyStrip
  rw [pyStripRight_eq_nil_iff]
  constructor
  · intro h c hc
    have hsplit := List.takeWhile_append_dropWhile isPyWhitespace s
    have : c ∈ List.takeWhile isPyWhitespace s ++ List.dropWhile isPyWhitespace s := by
      rw [hsplit]; exact hc
    rcases List.mem_append.mp this with htk | hdr
    · exact List.mem_takeWhile_imp htk
    · exact h c hdr
  · intro h c hc
    exact h c ((List.dropWhile_sublist isPyWhitespace).subset hc)

/-
Characters of rendered integers: every character of toString (n : Int)
is a decimal digit or a minus sign.
-/

theorem digitChar_isDigit {m : Nat} (h : m < 10) :
    (Nat.digitChar m).isDigit = true := by
  interval_cases m <;> decide

theorem toDigitsCore_isDigit (fuel : Nat) :
    ∀ (n : Nat) (acc : List Char), (∀ c ∈ acc, c.isDigit = true) →
      ∀ c ∈ Nat.toDigitsCore 10 fuel n acc, c.isDigit = true := by
  induction fuel with
  | zero =>
    intro n acc hacc c hc
    simp only [Nat.toDigitsCore] at hc
    exact hacc c hc
  | succ fuel ih =>
    intro n acc hacc c hc
    simp only [Nat.toDigitsCore] at hc
    have hd : (Nat.digitChar (n % 10)).isDigit = true :=
      digitChar_isDigit (Nat.mod_lt n (by norm_num))
    by_cases hz : n / 10 = 0
    · rw [if_pos hz] at hc
      rcases List.mem_cons.mp hc with rfl | hmem
      · exact hd
      · exact hacc c hmem
    · rw [if_neg hz] at hc
      refine ih (n / 10) (Nat.digitChar (n % 10) :: acc) ?_ c hc
      intro d hdmem
      rcases List.mem_cons.mp hdmem with rfl | hmem
      · exact hd
      · exact hacc d hmem

theorem natRepr_isDigit (n : Nat) :
    ∀ c ∈ (Nat.repr n).data, c.isDigit = true := by
  intro c hc
  have : c ∈ Nat.toDigitsCore 10 (n + 1) n [] := by
    simpa [Nat.repr, Nat.toDigits, List.asString] using hc
  exact toDigitsCore_isDigit (n + 1) n [] (by simp) c this

theorem intToString_chars (n : Int) :
    ∀ c ∈ (toString n).data, c.isDigit = true ∨ c = '-' := by
  intro c hc
  cases n with
  | ofNat m =>
    left
    exact natRepr_isDigit m c (by simpa [toString, instToStringInt, Nat.repr] using hc)
  | negSucc m =>
    have : c ∈ ("-" ++ toString (m + 1)).data := by
      simpa [toString, instToStringInt] using hc
    rw [String.data_append] at this
    rcases List.mem_append.mp this with hdash | hdig
    · right
      simpa using hdash
    · left
      exact natRepr_isDigit (m + 1) c (by simpa [toString, Nat.repr] using hdig)

/-
The square brackets delimiting the error placeholder occur in neither
the page header nor the page footer.
-/

theorem mem_pageHeader {c : Char} {lbl : Int} (hc : c ∈ pageHeader lbl) :
    c ∈ ("--- Página ").data ∨ (c.isDigit = true ∨ c = '-') ∨ c ∈ (" ---\n").data := by
  unfold pageHeader at hc
  rw [String.data_append, String.data_append, List.append_assoc] at hc
  rcases List.mem_append.mp hc with h1 | h23
  · exact Or.inl h1
  · rcases List.mem_append.mp h23 with h2 | h3
    · exact Or.inr (Or.inl (intToString_chars lbl c h2))
    · exact Or.inr (Or.inr h3)

theorem mem_pageFooter {c : Char} {lbl : Int} (hc : c ∈ pageFooter lbl) :
    c ∈ ("\n--- Fin de Página ").data ∨ (c.isDigit = true ∨ c = '-')
      ∨ c ∈ (" ---\n\n").data := by
  unfold pageFooter at hc
  rw [String.data_append, String.data_append, List.append_assoc] at hc
  rcases List.mem_append.mp hc with h1 | h23
  · exact Or.inl h1
  · rcases List.mem_append.mp h23 with h2 | h3
    · exact Or.inr (Or.inl (intToString_chars lbl c h2))
    · exact Or.inr (Or.inr h3)

theorem lbracket_not_mem_pageHeader (lbl : Int) : '[' ∉ pageHeader lbl := by
  intro h
  rcases mem_pageHeader h with h1 | (h2 | h2) | h3
  · revert h1; decide
  · revert h2; decide
  · revert h2; decide
  · revert h3; decide

theorem rbracket_not_mem_pageFooter (lbl : Int) : ']' ∉ pageFooter lbl := by
  intro h
  rcases mem_pageFooter h with h1 | (h2 | h2) | h3
  · revert h1; decide
  · revert h2; decide
  · revert h2; decide
  · revert h3; decide

/-
Boundary lemmas: a needle whose first character does not occur in the
left part and whose last character does not occur in the right part can
only occur inside the middle part of a concatenation.
-/

theorem not_infix_append_left {E P R : Str} {hd : Char}
    (hhd : E.head? = some hd) (hP : hd ∉ P) (hR : ¬ E <:+: R) :
    ¬ E <:+: P ++ R := by
  rintro ⟨s, t, hst⟩
  rw [List.append_assoc] at hst
  rcases List.append_eq_append_iff.mp hst with ⟨w, hPw, hEt⟩ | ⟨w, _, hRw⟩
  · cases w with
    | nil =>
      exact hR ⟨[], t, by simpa using hEt⟩
    | cons x w' =>
      have hE : E ≠ [] := by
        intro he
        rw [he] at hhd
        simp at hhd
      have hhead : (E ++ t).head? = some hd := by
        rw [List.head?_append_of_ne_nil E hE]; exact hhd
      rw [hEt] at hhead
      simp only [List.cons_append, List.head?_cons, Option.some.injEq] at hhead
      subst hhead
      exact hP (hPw ▸ List.mem_append.mpr (Or.inr (List.mem_cons_self _ _)))
  · exact hR ⟨w, t, by rw [hRw, List.append_assoc]⟩

theorem not_infix_append_right {E T S : Str} {lt : Char}
    (hlt : E.getLast? = some lt) (hS : lt ∉ S) (hT : ¬ E <:+: T) :
    ¬ E <:+: T ++ S := by
  intro h
  have hrev : E.reverse <:+: (T ++ S).reverse := List.reverse_infix.mpr h
  rw [List.reverse_append] at hrev
  have hhd : E.reverse.head? = some lt := by
    rw [List.head?_reverse]; exact hlt
  have hSrev : lt ∉ S.reverse := fun hmem => hS (List.mem_reverse.mp hmem)
  have hTrev : ¬ E.reverse <:+: T.reverse := fun hmem =>
    hT (List.reverse_infix.mp hmem)
  exact not_infix_append_left hhd hSrev hTrev hrev

/-
Lemmas about the transcription loop.
-/

theorem mem_sortedImages {img : ExamImage} {images : List ExamImage} :
    img ∈ sortedImages images ↔ img ∈ images :=
  (List.perm_insertionSort pageOrder images).mem_iff

theorem transcribePage_ok {llm : TranscribeOracle} {i : Nat} {img : ExamImage}
    {t : Str} (h : llm img.image_url = .ok t) :
    transcribePage llm i img =
      if t ≠ [] ∧ pyStrip t ≠ [] then
        pageHeader (pageLabel img.page_number i) ++ pyStrip t
          ++ pageFooter (pageLabel img.page_number i)
      else
        pageHeader (pageLabel img.page_number i) ++ EMPTY_PAGE_PLACEHOLDER
          ++ pageFooter (pageLabel img.page_number i) := by
  unfold transcribePage
  rw [h]

theorem transcribePage_error {llm : TranscribeOracle} {i : Nat} {img : ExamImage}
    {e : Unit} (h : llm img.image_url = .error e) :
    transcribePage llm i img =
      pageHeader (pageLabel img.page_number i) ++ PAGE_ERROR_PLACEHOLDER
        ++ pageFooter (pageLabel img.page_number i) := by
  unfold transcribePage
  rw [h]

theorem pageFailed_ok {llm : TranscribeOracle} {img : ExamImage} {t : Str}
    (h : llm img.image_url = .ok t) : pageFailed llm img = false := by
  unfold pageFailed
  rw [h]

theorem pageFailed_error {llm : TranscribeOracle} {img : ExamImage} {e : Unit}
    (h : llm img.image_url = .error e) : pageFailed llm img = true := by
  unfold pageFailed
  rw [h]

theorem anyPageFailed_eq_false_iff {llm : TranscribeOracle} {images : List ExamImage} :
    anyPageFailed llm images = false ↔ ∀ img ∈ images, pageFailed llm img = false := by
  unfold anyPageFailed
  rw [List.any_eq_false]
  constructor
  · intro h img hmem
    simpa using h img (mem_sortedImages.mpr hmem)
  · intro h img hmem
    simp [h img (mem_sortedImages.mp hmem)]

theorem anyPageFailed_eq_true_iff {llm : TranscribeOracle} {images : List ExamImage} :
    anyPageFailed llm images = true ↔ ∃ img ∈ images, pageFailed llm img = true := by
  unfold anyPageFailed
  rw [List.any_eq_true]
  constructor
  · rintro ⟨img, hmem, hf⟩
    exact ⟨img, mem_sortedImages.mp hmem, hf⟩
  · rintro ⟨img, hmem, hf⟩
    exact ⟨img, mem_sortedImages.mpr hmem, hf⟩

theorem dash_mem_pageHeader (lbl : Int) : '-' ∈ pageHeader lbl := by
  unfold pageHeader
  rw [String.data_append, String.data_append]
  exact List.mem_append.mpr (Or.inl (List.mem_append.mpr (Or.inl (by decide))))

theorem dash_mem_transcribePage (llm : TranscribeOracle) (i : Nat) (img : ExamImage) :
    '-' ∈ transcribePage llm i img := by
  cases h : llm img.image_url with
  | ok t =>
    rw [transcribePage_ok h]
    split <;>
      exact List.mem_append.mpr (Or.inl (List.mem_append.mpr (Or.inl (dash_mem_pageHeader _))))
  | error e =>
    rw [transcribePage_error h]
    exact List.mem_append.mpr (Or.inl (List.mem_append.mpr (Or.inl (dash_mem_pageHeader _))))

theorem transcriptionParts_ne_nil {llm : TranscribeOracle} {images : List ExamImage}
    (h : images ≠ []) : transcriptionParts llm images ≠ [] := by
  intro hparts
  apply h
  have hlen : (sortedImages images).length = images.length :=
    (List.perm_insertionSort pageOrder images).length_eq
  unfold transcriptionParts at hparts
  rw [List.map_eq_nil_iff] at hparts
  have hsort : sortedImages images = [] := by
    have := congrArg List.length hparts
    simpa [List.enum_length] using List.length_eq_zero.mp (by simpa using this)
  rw [hsort] at hlen
  exact List.length_eq_zero.mp hlen.symm

theorem finalTranscribedText_ne_nil {llm : TranscribeOracle} {images : List ExamImage}
    (h : images ≠ []) : finalTranscribedText llm images ≠ [] := by
  unfold finalTranscribedText
  intro hnil
  rw [pyStrip_eq_nil_iff] at hnil
  obtain ⟨p, ps, hcons⟩ := List.exists_cons_of_ne_nil (transcriptionParts_ne_nil h)
  have hp : p ∈ transcriptionParts llm images := by
    rw [hcons]
    exact List.mem_cons_self _ _
  obtain ⟨pair, _, hpeq⟩ := List.mem_map.mp hp
  have hdash : '-' ∈ (transcriptionParts llm images).flatten :=
    List.mem_flatten.mpr ⟨p, hp, hpeq ▸ dash_mem_transcribePage llm pair.1 pair.2⟩
  have hws := hnil '-' hdash
  revert hws
  decide

theorem err_not_infix_block {mid : Str} (lbl : Int)
    (hmid : ¬ PAGE_ERROR_PLACEHOLDER <:+: mid) :
    ¬ PAGE_ERROR_PLACEHOLDER <:+: pageHeader lbl ++ mid ++ pageFooter lbl := by
  rw [List.append_assoc]
  have hhd : PAGE_ERROR_PLACEHOLDER.head? = some '[' := by decide
  have hlt : PAGE_ERROR_PLACEHOLDER.getLast? = some ']' := by decide
  exact not_infix_append_left hhd (lbracket_not_mem_pageHeader lbl)
    (not_infix_append_right hlt (rbracket_not_mem_pageFooter lbl) hmid)

theorem err_infix_transcribePage_iff {llm : TranscribeOracle} {i : Nat}
    {img : ExamImage}
    (hok : ∀ t, llm img.image_url = .ok t → ¬ PAGE_ERROR_PLACEHOLDER <:+: t) :
    (PAGE_ERROR_PLACEHOLDER <:+: transcribePage llm i img)
      ↔ pageFailed llm img = true := by
  cases h : llm img.image_url with
  | ok t =>
    rw [transcribePage_ok h, pageFailed_ok h]
    simp only [Bool.false_eq_true, iff_false]
    split
    · exact err_not_infix_block _ (fun hin => hok t h (hin.trans (pyStrip_isInfix t)))
    · exact err_not_infix_block _ (by decide)
  | error e =>
    rw [transcribePage_error h, pageFailed_error h]
    simp only [iff_true]
    exact ⟨pageHeader _, pageFooter _, rfl⟩

/-
Reductions of the endpoint models under their guard conditions.
-/

theorem transcribe_run (llm : TranscribeOracle) (now : Nat) (uid : String)
    (paper : ExamPaper) (images : List ExamImage) (user : User)
    (hown : paper.user_id = uid) (himg : images ≠ [])
    (hstate : paper.status = "uploaded" ∨ paper.status = "error_transcription")
    (hcred : TRANSCRIPTION_COST ≤ user.credits) :
    transcribe_exam_paper_endpoint llm now uid paper images user =
      if anyPageFailed llm images then
        ⟨none,
         { paper with transcribed_text := some (finalTranscribedText llm images),
                      status := "error_transcription", updated_at := now },
         user⟩
      else
        ⟨none,
         { paper with transcribed_text := some (finalTranscribedText llm images),
                      status := "transcribed",
                      transcription_credits_consumed := TRANSCRIPTION_COST,
                      updated_at := now },
         { user with credits := user.credits - TRANSCRIPTION_COST }⟩ := by
  simp only [transcribe_exam_paper_endpoint]
  rw [if_neg (by simp [hown]), if_neg (by simp [himg]), if_neg (by simp [hstate]),
      if_neg (not_lt.mpr hcred), if_pos (finalTranscribedText_ne_nil himg)]

theorem transcribe_payment_required (llm : TranscribeOracle) (now : Nat)
    (uid : String) (paper : ExamPaper) (images : List ExamImage) (user : User)
    (hown : paper.user_id = uid) (himg : images ≠ [])
    (hstate : paper.status = "uploaded" ∨ paper.status = "error_transcription")
    (hcred : user.credits < TRANSCRIPTION_COST) :
    transcribe_exam_paper_endpoint llm now uid paper images user =
      ⟨some .paymentRequired, paper, user⟩ := by
  simp only [transcribe_exam_paper_endpoint]
  rw [if_neg (by simp [hown]), if_neg (by simp [himg]), if_neg (by simp [hstate]),
      if_pos hcred]

theorem correct_guard_run (llm : CorrectOracle) (now : Nat) (uid : String)
    (paper : ExamPaper) (user : User) (t : Str)
    (hown : paper.user_id = uid) (hst : paper.status = "transcribed")
    (htext : paper.transcribed_text = some t) (ht : pyStrip t ≠ []) :
    correct_exam_paper_endpoint llm now uid paper user =
      if user.credits < CORRECTION_COST then ⟨some .paymentRequired, paper, user⟩
      else
        match llm t with
        | .ok fb =>
          if fb ≠ [] ∧ pyStrip fb ≠ [] then
            ⟨none,
             { paper with corrected_feedback := some fb,
                          status := "corrected",
                          correction_credits_consumed := CORRECTION_COST,
                          correction_prompt_version :=
                            some CORRECTION_PROMPT_VERSION_CURRENT,
                          corrected_at := some now,
                          updated_at := now },
             { user with credits := user.credits - CORRECTION_COST }⟩
          else
            ⟨some .internalFailure,
             { paper with status := "error_correction", updated_at := now }, user⟩
        | .error _ =>
          ⟨some .internalFailure,
           { paper with status := "error_correction", updated_at := now }, user⟩ := by
  have ht0 : t ≠ [] := by
    intro h
    subst h
    exact ht rfl
  simp only [correct_exam_paper_endpoint]
  rw [if_neg (by simp [hown]), if_neg (by simp [hst]), htext]
  simp only [if_neg (by simp [ht0, ht] : ¬ (t = [] ∨ pyStrip t = []))]

theorem update_text_run (now : Nat) (uid : String) (paper : ExamPaper)
    (user : User) (newText : Str) (hown : paper.user_id = uid) :
    update_exam_paper_transcribed_text now uid paper user newText =
      ⟨none,
       if (paper.status = "error_transcription" ∨ paper.status = "uploaded")
           ∧ newText ≠ [] ∧ pyStrip newText ≠ [] then
         { paper with transcribed_text := some newText, updated_at := now,
                      status := "transcribed" }
       else { paper with transcribed_text := some newText, updated_at := now },
       user⟩ := by
  simp only [update_exam_paper_transcribed_text]
  rw [if_neg (by simp [hown])]

/-
Claim theorems.
-/

/-- C1 counterexample: a single-page paper whose page call returns empty
text (no usable text on any page) is nonetheless billed: the empty-page
placeholder makes the joined text non-empty, so the paper reaches
status transcribed, transcription_credits_consumed is set to
TRANSCRIPTION_COST and the user's credits decrease — contradicting the
claim that an empty result leaves credits untouched and moves the paper
to error_transcription. -/
theorem C1_counterexample :
    llmEmpty ("http://img/1") = .ok [] ∧
    (transcribe_exam_paper_endpoint llmEmpty 7 ("u1") paperUploaded [image1]
        userFive).paper.status = "transcribed" ∧
    (transcribe_exam_paper_endpoint llmEmpty 7 ("u1") paperUploaded [image1]
        userFive).paper.transcription_credits_consumed = TRANSCRIPTION_COST ∧
    (transcribe_exam_paper_endpoint llmEmpty 7 ("u1") paperUploaded [image1]
        userFive).user.credits = userFive.credits - TRANSCRIPTION_COST :=
  ⟨rfl, by decide, by decide, by decide⟩

/-- C1 (amended): credits follow exceptions, not emptiness.  Credits are
debited exactly when no page's AI call raises: if any page raises an
exception the paper ends in error_transcription with
transcription_credits_consumed still 0 and the user row untouched,
while if no page raises (even if pages return empty text, which is
replaced by a placeholder) the paper ends in transcribed, the audit
field is set to TRANSCRIPTION_COST and the balance decreases by
TRANSCRIPTION_COST. -/
theorem C1_credits_follow_exceptions (llm : TranscribeOracle) (now : Nat)
    (uid : String) (paper : ExamPaper) (images : List ExamImage) (user : User)
    (hown : paper.user_id = uid) (himg : images ≠ [])
    (hstate : paper.status = "uploaded" ∨ paper.status = "error_transcription")
    (hcred : TRANSCRIPTION_COST ≤ user.credits)
    (hcons : paper.transcription_credits_consumed = 0) :
    ((∃ img ∈ images, pageFailed llm img = true) →
      (transcribe_exam_paper_endpoint llm now uid paper images user).paper.status
          = "error_transcription" ∧
      (transcribe_exam_paper_endpoint llm now uid paper images
          user).paper.transcription_credits_consumed = 0 ∧
      (transcribe_exam_paper_endpoint llm now uid paper images user).user = user) ∧
    ((∀ img ∈ images, pageFailed llm img = false) →
      (transcribe_exam_paper_endpoint llm now uid paper images user).paper.status
          = "transcribed" ∧
      (transcribe_exam_paper_endpoint llm now uid paper images
          user).paper.transcription_credits_consumed = TRANSCRIPTION_COST ∧
      (transcribe_exam_paper_endpoint llm now uid paper images user).user.credits
          = user.credits - TRANSCRIPTION_COST) := by
  rw [transcribe_run llm now uid paper images user hown himg hstate hcred]
  constructor
  · intro hfail
    rw [if_pos (anyPageFailed_eq_true_iff.mpr hfail)]
    exact ⟨rfl, hcons, rfl⟩
  · intro hok
    rw [if_neg (by simp [anyPageFailed_eq_false_iff.mpr hok])]
    exact ⟨rfl, rfl, rfl⟩

/-- Witness for C1 at a concrete input: a two-page paper where page 2's
call raises, run by a user holding 5 credits. -/
theorem C1_witness :
    (paperUploaded.user_id = "u1" ∧ ([image1, image2] : List ExamImage) ≠ [] ∧
      (paperUploaded.status = "uploaded" ∨
        paperUploaded.status = "error_transcription") ∧
      TRANSCRIPTION_COST ≤ userFive.credits ∧
      paperUploaded.transcription_credits_consumed = 0) ∧
    (((∃ img ∈ ([image1, image2] : List ExamImage),
        pageFailed llmFailPage2 img = true) →
      (transcribe_exam_paper_endpoint llmFailPage2 7 ("u1") paperUploaded
          [image1, image2] userFive).paper.status = "error_transcription" ∧
      (transcribe_exam_paper_endpoint llmFailPage2 7 ("u1") paperUploaded
          [image1, image2] userFive).paper.transcription_credits_consumed = 0 ∧
      (transcribe_exam_paper_endpoint llmFailPage2 7 ("u1") paperUploaded
          [image1, image2] userFive).user = userFive) ∧
    ((∀ img ∈ ([image1, image2] : List ExamImage),
        pageFailed llmFailPage2 img = false) →
      (transcribe_exam_paper_endpoint llmFailPage2 7 ("u1") paperUploaded
          [image1, image2] userFive).paper.status = "transcribed" ∧
      (transcribe_exam_paper_endpoint llmFailPage2 7 ("u1") paperUploaded
          [image1, image2] userFive).paper.transcription_credits_consumed
          = TRANSCRIPTION_COST ∧
      (transcribe_exam_paper_endpoint llmFailPage2 7 ("u1") paperUploaded
          [image1, image2] userFive).user.credits
          = userFive.credits - TRANSCRIPTION_COST)) :=
  ⟨⟨rfl, by decide, Or.inl rfl, by decide, rfl⟩,
   C1_credits_follow_exceptions llmFailPage2 7 ("u1") paperUploaded
     [image1, image2] userFive rfl (by decide) (Or.inl rfl) (by decide) rfl⟩

/-- C2: on a transcription where at least one page's call raises (and no
successful page's text itself contains the error placeholder), the paper
ends in error_transcription, the audit field stays 0, the user row is
untouched, the stored text is the stripped concatenation of the per-page
segments, and the error placeholder occurs in a page's segment exactly
when that page failed. -/
theorem C2_partial_failure (llm : TranscribeOracle) (now : Nat) (uid : String)
    (paper : ExamPaper) (images : List ExamImage) (user : User)
    (hown : paper.user_id = uid) (himg : images ≠ [])
    (hstate : paper.status = "uploaded" ∨ paper.status = "error_transcription")
    (hcred : TRANSCRIPTION_COST ≤ user.credits)
    (hcons : paper.transcription_credits_consumed = 0)
    (hfail : ∃ img ∈ images, pageFailed llm img = true)
    (hok : ∀ img ∈ images, ∀ t, llm img.image_url = .ok t →
      ¬ PAGE_ERROR_PLACEHOLDER <:+: t) :
    (transcribe_exam_paper_endpoint llm now uid paper images user).paper.status
        = "error_transcription" ∧
    (transcribe_exam_paper_endpoint llm now uid paper images
        user).paper.transcription_credits_consumed = 0 ∧
    (transcribe_exam_paper_endpoint llm now uid paper images user).user = user ∧
    (transcribe_exam_paper_endpoint llm now uid paper images
        user).paper.transcribed_text = some (finalTranscribedText llm images) ∧
    ∀ p ∈ (sortedImages images).enum,
      ((PAGE_ERROR_PLACEHOLDER <:+: transcribePage llm p.1 p.2)
        ↔ pageFailed llm p.2 = true) := by
  rw [transcribe_run llm now uid paper images user hown himg hstate hcred,
      if_pos (anyPageFailed_eq_true_iff.mpr hfail)]
  refine ⟨rfl, hcons, rfl, rfl, ?_⟩
  intro p hp
  obtain ⟨hlt, hx⟩ := List.mem_enum (show (p.1, p.2) ∈ _ from hp)
  have hmem : p.2 ∈ images := mem_sortedImages.mp (hx ▸ List.getElem_mem hlt)
  exact err_infix_transcribePage_iff (fun t hto => hok p.2 hmem t hto)

/-- Witness for C2 at a concrete input: a two-page paper where page 2's
call raises and page 1 returns ordinary text. -/
theorem C2_witness :
    (paperUploaded.user_id = "u1" ∧ ([image1, image2] : List ExamImage) ≠ [] ∧
      (paperUploaded.status = "uploaded" ∨
        paperUploaded.status = "error_transcription") ∧
      TRANSCRIPTION_COST ≤ userFive.credits ∧
      paperUploaded.transcription_credits_consumed = 0 ∧
      (∃ img ∈ ([image1, image2] : List ExamImage),
        pageFailed llmFailPage2 img = true) ∧
      (∀ img ∈ ([image1, image2] : List ExamImage), ∀ t,
        llmFailPage2 img.image_url = .ok t →
          ¬ PAGE_ERROR_PLACEHOLDER <:+: t)) ∧
    ((transcribe_exam_paper_endpoint llmFailPage2 7 ("u1") paperUploaded
        [image1, image2] userFive).paper.status = "error_transcription" ∧
     (transcribe_exam_paper_endpoint llmFailPage2 7 ("u1") paperUploaded
        [image1, image2] userFive).paper.transcription_credits_consumed = 0 ∧
     (transcribe_exam_paper_endpoint llmFailPage2 7 ("u1") paperUploaded
        [image1, image2] userFive).user = userFive ∧
     (transcribe_exam_paper_endpoint llmFailPage2 7 ("u1") paperUploaded
        [image1, image2] userFive).paper.transcribed_text
        = some (finalTranscribedText llmFailPage2 [image1, image2]) ∧
     ∀ p ∈ (sortedImages [image1, image2]).enum,
       ((PAGE_ERROR_PLACEHOLDER <:+: transcribePage llmFailPage2 p.1 p.2)
         ↔ pageFailed llmFailPage2 p.2 = true)) := by
  have hok : ∀ img ∈ ([image1, image2] : List ExamImage), ∀ t,
      llmFailPage2 img.image_url = .ok t → ¬ PAGE_ERROR_PLACEHOLDER <:+: t := by
    intro img hmem t ht
    fin_cases hmem
    · have : t = ("texto de la página").data := by
        simpa [llmFailPage2, image1] using ht.symm
      subst this
      decide
    · simp [llmFailPage2, image2] at ht
  exact ⟨⟨rfl, by decide, Or.inl rfl, by decide, rfl, by decide, hok⟩,
    C2_partial_failure llmFailPage2 7 ("u1") paperUploaded [image1, image2]
      userFive rfl (by decide) (Or.inl rfl) (by decide) rfl (by decide) hok⟩

/-- C3 counterexample: with two papers created at times 0 and 1, the
listing returns the older paper first — ascending creation time, not
the claimed newest-first (descending) order. -/
theorem C3_counterexample :
    list_exam_papers_for_current_user [paperNew, paperOld] ("u1") 0 100
      = [paperOld, paperNew] ∧
    ¬ List.Pairwise (fun a b => b.created_at ≤ a.created_at)
      (list_exam_papers_for_current_user [paperNew, paperOld] ("u1") 0 100) :=
  ⟨by decide, by decide⟩

/-- C3 (amended): listing a user's exam papers returns them in ascending
order of creation time (oldest first), and every returned paper belongs
to the requesting user. -/
theorem C3_sorted_oldest_first (papers : List ExamPaper) (uid : String)
    (skip limit : Nat) :
    List.Pairwise createdAtLE
      (list_exam_papers_for_current_user papers uid skip limit) ∧
    ∀ p ∈ list_exam_papers_for_current_user papers uid skip limit,
      p.user_id = uid := by
  constructor
  · have hs : List.Pairwise createdAtLE
        ((papers.filter fun p => p.user_id == uid).insertionSort createdAtLE) :=
      List.sorted_insertionSort createdAtLE _
    exact hs.sublist ((List.take_sublist _ _).trans (List.drop_sublist _ _))
  · intro p hp
    have h1 : p ∈ (papers.filter fun q => q.user_id == uid).insertionSort createdAtLE :=
      (List.drop_sublist _ _).subset ((List.take_sublist _ _).subset hp)
    have h2 : p ∈ papers.filter fun q => q.user_id == uid :=
      (List.perm_insertionSort createdAtLE _).mem_iff.mp h1
    have h3 := List.of_mem_filter h2
    exact eq_of_beq h3

/-- C4 counterexample: a paper in status transcribed that has no
associated images receives BadRequest from the transcription endpoint,
not the claimed Conflict. -/
theorem C4_counterexample :
    paperTranscribed.status = "transcribed" ∧
    (transcribe_exam_paper_endpoint llmGood 7 ("u1") paperTranscribed []
        userFive).response = some .badRequest ∧
    (transcribe_exam_paper_endpoint llmGood 7 ("u1") paperTranscribed []
        userFive).response ≠ some .conflict :=
  ⟨rfl, by decide, by decide⟩

/-- C4 (amended): for every paper with at least one associated image
whose status is transcribed, transcribing, corrected, or correcting, a
transcription request returns Conflict and leaves the paper row and the
owner's user row exactly as they were. -/
theorem C4_conflict_on_wrong_state (llm : TranscribeOracle) (now : Nat)
    (uid : String) (paper : ExamPaper) (images : List ExamImage) (user : User)
    (hown : paper.user_id = uid) (himg : images ≠ [])
    (hstate : paper.status = "transcribed" ∨ paper.status = "transcribing" ∨
      paper.status = "corrected" ∨ paper.status = "correcting") :
    transcribe_exam_paper_endpoint llm now uid paper images user
      = ⟨some .conflict, paper, user⟩ := by
  have hcond : ¬ (paper.status = "uploaded" ∨ paper.status = "error_transcription") := by
    rcases hstate with h | h | h | h <;> simp [h]
  simp only [transcribe_exam_paper_endpoint]
  rw [if_neg (by simp [hown]), if_neg (by simp [himg]), if_pos hcond]

/-- Witness for C4 at a concrete input: a one-image paper in status
transcribed. -/
theorem C4_witness :
    (paperTranscribed.user_id = "u1" ∧ ([image1] : List ExamImage) ≠ [] ∧
      (paperTranscribed.status = "transcribed" ∨
        paperTranscribed.status = "transcribing" ∨
        paperTranscribed.status = "corrected" ∨
        paperTranscribed.status = "correcting")) ∧
    transcribe_exam_paper_endpoint llmGood 7 ("u1") paperTranscribed [image1]
      userFive = ⟨some .conflict, paperTranscribed, userFive⟩ :=
  ⟨⟨rfl, by decide, Or.inl rfl⟩,
   C4_conflict_on_wrong_state llmGood 7 ("u1") paperTranscribed [image1]
     userFive rfl (by decide) (Or.inl rfl)⟩

/-- C5: when the balance check is reached and the balance is below the
operation's cost, both billable operations answer PaymentRequired and
leave the paper row and the user row exactly as they were; the result
is the same for every AI oracle, so the provider is never consulted. -/
theorem C5_payment_required :
    (∀ (llm : TranscribeOracle) (now : Nat) (uid : String) (paper : ExamPaper)
        (images : List ExamImage) (user : User),
      paper.user_id = uid → images ≠ [] →
      (paper.status = "uploaded" ∨ paper.status = "error_transcription") →
      user.credits < TRANSCRIPTION_COST →
      transcribe_exam_paper_endpoint llm now uid paper images user
        = ⟨some .paymentRequired, paper, user⟩) ∧
    (∀ (llm : CorrectOracle) (now : Nat) (uid : String) (paper : ExamPaper)
        (user : User) (t : Str),
      paper.user_id = uid → paper.status = "transcribed" →
      paper.transcribed_text = some t → pyStrip t ≠ [] →
      user.credits < CORRECTION_COST →
      correct_exam_paper_endpoint llm now uid paper user
        = ⟨some .paymentRequired, paper, user⟩) := by
  constructor
  · intro llm now uid paper images user hown himg hstate hcred
    exact transcribe_payment_required llm now uid paper images user hown himg
      hstate hcred
  · intro llm now uid paper user t hown hst htext ht hcred
    rw [correct_guard_run llm now uid paper user t hown hst htext ht,
        if_pos hcred]

/-- Witness for C5 at concrete inputs: a user with 0 credits attempting
transcription of an uploaded paper and correction of a transcribed
paper. -/
theorem C5_witness :
    (paperUploaded.user_id = "u1" ∧ ([image1] : List ExamImage) ≠ [] ∧
      (paperUploaded.status = "uploaded" ∨
        paperUploaded.status = "error_transcription") ∧
      userBroke.credits < TRANSCRIPTION_COST ∧
      transcribe_exam_paper_endpoint llmGood 7 ("u1") paperUploaded [image1]
        userBroke = ⟨some .paymentRequired, paperUploaded, userBroke⟩) ∧
    (paperTranscribed.user_id = "u1" ∧ paperTranscribed.status = "transcribed" ∧
      paperTranscribed.transcribed_text = some ("hola mundo".data) ∧
      pyStrip ("hola mundo".data) ≠ [] ∧
      userBroke.credits < CORRECTION_COST ∧
      correct_exam_paper_endpoint llmCorrectFail 7 ("u1") paperTranscribed
        userBroke = ⟨some .paymentRequired, paperTranscribed, userBroke⟩) :=
  ⟨⟨rfl, by decide, Or.inl rfl, by decide,
    C5_payment_required.1 llmGood 7 ("u1") paperUploaded [image1] userBroke
      rfl (by decide) (Or.inl rfl) (by decide)⟩,
   ⟨rfl, rfl, rfl, by decide,
    by decide,
    C5_payment_required.2 llmCorrectFail 7 ("u1") paperTranscribed userBroke
      ("hola mundo".data) rfl rfl rfl (by decide) (by decide)⟩⟩

/-- C6: the upload quota check rejects with Forbidden exactly when the
user's fresh paper count has reached MAX_EXAM_PAPERS_PER_USER — at or
above the maximum the request is rejected and no paper row is left
behind, while below the maximum (in particular at MAX - 1) the response
is never Forbidden. -/
theorem C6_quota (storageConfigured : Bool) (count : Nat)
    (files : List UploadFileIn) (essay_title : Option String)
    (defaultName : String) (uid : String) (newPaperId : Int)
    (imageUrlFor : Nat → String) (now : Nat) :
    (count ≥ MAX_EXAM_PAPERS_PER_USER →
      upload_multiple_exam_images storageConfigured count files essay_title
        defaultName uid newPaperId imageUrlFor now = ⟨some .forbidden, none, []⟩) ∧
    (count < MAX_EXAM_PAPERS_PER_USER →
      (upload_multiple_exam_images storageConfigured count files essay_title
        defaultName uid newPaperId imageUrlFor now).response ≠ some .forbidden) := by
  constructor
  · intro h
    simp only [upload_multiple_exam_images]
    rw [if_pos h]
  · intro h
    simp only [upload_multiple_exam_images]
    rw [if_neg (not_le.mpr h)]
    split
    · simp
    · split
      · simp
      · split <;> simp

/-- Witness for C6 at concrete inputs: a count at the maximum and a
count one below it. -/
theorem C6_witness :
    (MAX_EXAM_PAPERS_PER_USER ≥ MAX_EXAM_PAPERS_PER_USER ∧
      upload_multiple_exam_images true MAX_EXAM_PAPERS_PER_USER [goodFile]
        none ("d") ("u1") 1 (fun _ => "url") 0 = ⟨some .forbidden, none, []⟩) ∧
    (MAX_EXAM_PAPERS_PER_USER - 1 < MAX_EXAM_PAPERS_PER_USER ∧
      (upload_multiple_exam_images true (MAX_EXAM_PAPERS_PER_USER - 1) [goodFile]
        none ("d") ("u1") 1 (fun _ => "url") 0).response ≠ some .forbidden) :=
  ⟨⟨le_refl _,
    (C6_quota true MAX_EXAM_PAPERS_PER_USER [goodFile] none ("d") ("u1") 1
      (fun _ => "url") 0).1 (le_refl _)⟩,
   ⟨by decide,
    (C6_quota true (MAX_EXAM_PAPERS_PER_USER - 1) [goodFile] none ("d") ("u1") 1
      (fun _ => "url") 0).2 (by decide)⟩⟩

/-- C7: when every page's AI call returns non-blank text, the paper ends
in status transcribed, transcription_credits_consumed equals
TRANSCRIPTION_COST, and the owner's balance decreases by exactly
TRANSCRIPTION_COST — once for the whole paper, independent of the number
of pages. -/
theorem C7_success_billing (llm : TranscribeOracle) (now : Nat) (uid : String)
    (paper : ExamPaper) (images : List ExamImage) (user : User)
    (hown : paper.user_id = uid) (himg : images ≠ [])
    (hstate : paper.status = "uploaded" ∨ paper.status = "error_transcription")
    (hcred : TRANSCRIPTION_COST ≤ user.credits)
    (hsucc : ∀ img ∈ images, ∃ t, llm img.image_url = .ok t ∧ t ≠ [] ∧
      pyStrip t ≠ []) :
    (transcribe_exam_paper_endpoint llm now uid paper images user).paper.status
        = "transcribed" ∧
    (transcribe_exam_paper_endpoint llm now uid paper images
        user).paper.transcription_credits_consumed = TRANSCRIPTION_COST ∧
    (transcribe_exam_paper_endpoint llm now uid paper images user).user.credits
        = user.credits - TRANSCRIPTION_COST := by
  have hnofail : ∀ img ∈ images, pageFailed llm img = false := by
    intro img hmem
    obtain ⟨t, hok, _, _⟩ := hsucc img hmem
    exact pageFailed_ok hok
  rw [transcribe_run llm now uid paper images user hown himg hstate hcred,
      if_neg (by simp [anyPageFailed_eq_false_iff.mpr hnofail])]
  exact ⟨rfl, rfl, rfl⟩

/-- Witness for C7 at a concrete input: a two-page paper whose pages both
return non-blank text, run by a user holding 5 credits. -/
theorem C7_witness :
    (paperUploaded.user_id = "u1" ∧ ([image1, image2] : List ExamImage) ≠ [] ∧
      (paperUploaded.status = "uploaded" ∨
        paperUploaded.status = "error_transcription") ∧
      TRANSCRIPTION_COST ≤ userFive.credits ∧
      (∀ img ∈ ([image1, image2] : List ExamImage), ∃ t,
        llmGood img.image_url = .ok t ∧ t ≠ [] ∧ pyStrip t ≠ [])) ∧
    ((transcribe_exam_paper_endpoint llmGood 7 ("u1") paperUploaded
        [image1, image2] userFive).paper.status = "transcribed" ∧
     (transcribe_exam_paper_endpoint llmGood 7 ("u1") paperUploaded
        [image1, image2] userFive).paper.transcription_credits_consumed
        = TRANSCRIPTION_COST ∧
     (transcribe_exam_paper_endpoint llmGood 7 ("u1") paperUploaded
        [image1, image2] userFive).user.credits
        = userFive.credits - TRANSCRIPTION_COST) := by
  have hsucc : ∀ img ∈ ([image1, image2] : List ExamImage), ∃ t,
      llmGood img.image_url = .ok t ∧ t ≠ [] ∧ pyStrip t ≠ [] :=
    fun img _ => ⟨("texto de la página").data, rfl, by decide, by decide⟩
  exact ⟨⟨rfl, by decide, Or.inl rfl, by decide, hsucc⟩,
    C7_success_billing llmGood 7 ("u1") paperUploaded [image1, image2] userFive
      rfl (by decide) (Or.inl rfl) (by decide) hsucc⟩

/-- C8 counterexample: a manual edit with the whitespace-only text
consisting of a single space — non-empty as a string — stores the text
but does not advance the status of a paper in error_transcription to
transcribed, because the handler additionally requires the stripped text
to be non-empty. -/
theorem C8_counterexample :
    paperErrorT.status = "error_transcription" ∧ ([' '] : Str) ≠ [] ∧
    (update_exam_paper_transcribed_text 7 ("u1") paperErrorT userFive
        [' ']).paper.transcribed_text = some [' '] ∧
    (update_exam_paper_transcribed_text 7 ("u1") paperErrorT userFive
        [' ']).paper.status = "error_transcription" ∧
    (update_exam_paper_transcribed_text 7 ("u1") paperErrorT userFive
        [' ']).paper.status ≠ "transcribed" :=
  ⟨rfl, by decide, by decide, by decide, by decide⟩

/-- C8 (amended): a manual edit by the owner of a paper in status
uploaded or error_transcription with text that is non-empty after
stripping whitespace stores the new text verbatim, advances the status
to transcribed, and touches neither the billing audit fields nor the
user row. -/
theorem C8_manual_edit (now : Nat) (uid : String) (paper : ExamPaper)
    (user : User) (newText : Str) (hown : paper.user_id = uid)
    (hstate : paper.status = "uploaded" ∨ paper.status = "error_transcription")
    (htext : pyStrip newText ≠ []) :
    update_exam_paper_transcribed_text now uid paper user newText
      = ⟨none,
         { paper with transcribed_text := some newText, updated_at := now,
                      status := "transcribed" },
         user⟩ := by
  have h0 : newText ≠ [] := by
    intro h
    subst h
    exact htext rfl
  have hstate' : paper.status = "error_transcription" ∨ paper.status = "uploaded" :=
    hstate.elim Or.inr Or.inl
  rw [update_text_run now uid paper user newText hown,
      if_pos ⟨hstate', h0, htext⟩]

/-- Witness for C8 at a concrete input: a paper in error_transcription
manually edited with non-blank text. -/
theorem C8_witness :
    (paperErrorT.user_id = "u1" ∧
      (paperErrorT.status = "uploaded" ∨
        paperErrorT.status = "error_transcription") ∧
      pyStrip ("nuevo texto".data) ≠ []) ∧
    update_exam_paper_transcribed_text 7 ("u1") paperErrorT userFive
        ("nuevo texto".data)
      = ⟨none,
         { paperErrorT with transcribed_text := some ("nuevo texto".data),
                            updated_at := 7, status := "transcribed" },
         userFive⟩ :=
  ⟨⟨rfl, Or.inr rfl, by decide⟩,
   C8_manual_edit 7 ("u1") paperErrorT userFive ("nuevo texto".data) rfl
     (Or.inr rfl) (by decide)⟩

/-- C9: correcting a transcribed paper with a non-blank transcript whose
AI correction call raises leaves the balance and the audit field alone,
moves the paper to error_correction, leaves corrected_at and
corrected_feedback unset, and answers InternalFailure. -/
theorem C9_correction_failure (llm : CorrectOracle) (now : Nat) (uid : String)
    (paper : ExamPaper) (user : User) (t : Str)
    (hown : paper.user_id = uid) (hst : paper.status = "transcribed")
    (htext : paper.transcribed_text = some t) (ht : pyStrip t ≠ [])
    (hcred : CORRECTION_COST ≤ user.credits)
    (hcons : paper.correction_credits_consumed = 0)
    (hfb : paper.corrected_feedback = none) (hca : paper.corrected_at = none)
    (hthrow : llm t = .error ()) :
    (correct_exam_paper_endpoint llm now uid paper user).response
        = some .internalFailure ∧
    (correct_exam_paper_endpoint llm now uid paper user).paper.status
        = "error_correction" ∧
    (correct_exam_paper_endpoint llm now uid paper
        user).paper.correction_credits_consumed = 0 ∧
    (correct_exam_paper_endpoint llm now uid paper user).user = user ∧
    (correct_exam_paper_endpoint llm now uid paper user).paper.corrected_at
        = none ∧
    (correct_exam_paper_endpoint llm now uid paper user).paper.corrected_feedback
        = none := by
  rw [correct_guard_run llm now uid paper user t hown hst htext ht,
      if_neg (not_lt.mpr hcred), hthrow]
  exact ⟨rfl, rfl, hcons, rfl, hca, hfb⟩

/-- Witness for C9 at a concrete input: a transcribed paper whose
correction oracle raises, run by a user holding 5 credits. -/
theorem C9_witness :
    (paperTranscribed.user_id = "u1" ∧ paperTranscribed.status = "transcribed" ∧
      paperTranscribed.transcribed_text = some ("hola mundo".data) ∧
      pyStrip ("hola mundo".data) ≠ [] ∧
      CORRECTION_COST ≤ userFive.credits ∧
      paperTranscribed.correction_credits_consumed = 0 ∧
      paperTranscribed.corrected_feedback = none ∧
      paperTranscribed.corrected_at = none ∧
      llmCorrectFail ("hola mundo".data) = .error ()) ∧
    ((correct_exam_paper_endpoint llmCorrectFail 7 ("u1") paperTranscribed
        userFive).response = some .internalFailure ∧
     (correct_exam_paper_endpoint llmCorrectFail 7 ("u1") paperTranscribed
        userFive).paper.status = "error_correction" ∧
     (correct_exam_paper_endpoint llmCorrectFail 7 ("u1") paperTranscribed
        userFive).paper.correction_credits_consumed = 0 ∧
     (correct_exam_paper_endpoint llmCorrectFail 7 ("u1") paperTranscribed
        userFive).user = userFive ∧
     (correct_exam_paper_endpoint llmCorrectFail 7 ("u1") paperTranscribed
        userFive).paper.corrected_at = none ∧
     (correct_exam_paper_endpoint llmCorrectFail 7 ("u1") paperTranscribed
        userFive).paper.corrected_feedback = none) :=
  ⟨⟨rfl, rfl, rfl, by decide, by decide, rfl, rfl, rfl, rfl⟩,
   C9_correction_failure llmCorrectFail 7 ("u1") paperTranscribed userFive
     ("hola mundo".data) rfl rfl rfl (by decide) (by decide) rfl rfl rfl rfl⟩

/-- C10: a transcription request for an owned paper with no associated
images answers BadRequest with the paper row and user row untouched,
whatever the paper's status (including uploaded and error_transcription)
and whatever the user's balance — the no-images check precedes both the
wrong-state Conflict check and the insufficient-credits PaymentRequired
check. -/
theorem C10_no_images_precedence (llm : TranscribeOracle) (now : Nat)
    (uid : String) (paper : ExamPaper) (user : User)
    (hown : paper.user_id = uid) :
    transcribe_exam_paper_endpoint llm now uid paper [] user
      = ⟨some .badRequest, paper, user⟩ := by
  simp only [transcribe_exam_paper_endpoint]
  rw [if_neg (by simp [hown])]
  simp

/-- Witness for C10 at a concrete input: an image-less paper in a
wrong-for-transcription status owned by a user with 0 credits still
receives BadRequest. -/
theorem C10_witness :
    paperTranscribed.user_id = "u1" ∧
    transcribe_exam_paper_endpoint llmGood 7 ("u1") paperTranscribed [] userBroke
      = ⟨some .badRequest, paperTranscribed, userBroke⟩ :=
  ⟨rfl, C10_no_images_precedence llmGood 7 ("u1") paperTranscribed userBroke rfl⟩

end Corrector
